import Mathlib

/-!
Verification of the optimization-exercise repository: shallow embeddings of
the knapsack MILP (knapsack.py), the blending LP (beer_maxalc_scipy.py,
beer_pyomo_rules.py), the box-volume NLP (boxvolume_lagrange1.py,
boxvolume_nonlinear1.py), and the unit-commitment model
(varme.py, homework3_copy.py), with theorems about the claims made by the
specification. Definitions come first, theorems afterwards.
-/

namespace Spec2Proof

/-! ### Definitions: knapsack model (knapsack.py)

`A = ['hammer', 'wrench', 'screwdriver', 'towel']`, values `b`, weights `w`,
capacity `W_max = 14`; a binary selection variable per item, objective
`sum(b[i]*x[i])` maximized subject to `sum(w[i]*x[i]) <= W_max`. -/

/-- The item list `A` of knapsack.py, indexed by `Fin 4`. -/
def A : Fin 4 → String := !["hammer", "wrench", "screwdriver", "towel"]

/-- The value dictionary `b = {'hammer':8, 'wrench':3, 'screwdriver':6, 'towel':11}`. -/
def b : Fin 4 → ℤ := ![8, 3, 6, 11]

/-- The weight dictionary `w = {'hammer':5, 'wrench':7, 'screwdriver':4, 'towel':3}`. -/
def w : Fin 4 → ℤ := ![5, 7, 4, 3]

/-- The knapsack capacity `W_max = 14`. -/
def W_max : ℤ := 14

/-- A binary selection: one Boolean per item, as in `model.x = pyo.Var(A, within=pyo.Binary)`. -/
def Sel : Type := Fin 4 → Bool

instance : DecidableEq Sel := by unfold Sel; infer_instance

instance : Fintype Sel := by unfold Sel; infer_instance

/-- Numeric value of a binary variable. -/
def b2i (x : Bool) : ℤ := if x then 1 else 0

/-- The knapsack objective `sum(b[i]*model.x[i] for i in A)`. -/
def totalValue (x : Sel) : ℤ := Finset.univ.sum fun i => b i * b2i (x i)

/-- The knapsack weight `sum(w[i]*model.x[i] for i in A)`. -/
def totalWeight (x : Sel) : ℤ := Finset.univ.sum fun i => w i * b2i (x i)

/-! ### Definitions: generic model / optimality (the build-solve pattern shared by the scripts) -/

/-- A model: a feasible set and an objective to be maximized. -/
structure OptModel (α : Type) where
  Feasible : α → Prop
  obj : α → ℤ

/-- `x` is an optimal solution of `M`: feasible, and no feasible point does better. -/
def IsOptimal {α : Type} (M : OptModel α) (x : α) : Prop :=
  M.Feasible x ∧ ∀ y, M.Feasible y → M.obj y ≤ M.obj x

/-- Fixing all variables at `x0`: each variable's lower and upper bound collapse to its
found value, so the only candidate point is `x0` itself; the model is otherwise
structurally identical (same feasibility relation, same objective), as in
`model.x.fix(); model.y.fix(); model.z.fix(); model.w.fix()` of varme.py and
homework3_copy.py. -/
def fixAll {α : Type} (M : OptModel α) (x0 : α) : OptModel α :=
  ⟨fun y => M.Feasible y ∧ y = x0, M.obj⟩

/-- The knapsack instance of the generic model. -/
def knapModel : OptModel Sel :=
  ⟨fun x => totalWeight x ≤ W_max, totalValue⟩

/-- The selection {hammer, screwdriver, towel}: weight 12, value 25. -/
def selBest : Sel := ![true, false, true, true]

/-! ### Definitions: infeasible knapsack (Scenario 4): negative capacity

The repository's knapsack script hands the model to an external MILP solver;
the solver and its error taxonomy are not part of src/. -/

/-- Modelled from the spec: the solver adapter's result type. Section 7 of the spec
requires the adapter to return a typed result — `InfeasibleError` when the solver
proves no feasible point exists — never a crash and never a spurious zero solution. -/
inductive SolveResult where
  | optimal (x : Sel) : SolveResult
  | infeasibleError : SolveResult
deriving DecidableEq

/-- All 16 binary selections. -/
def allSel : List Sel :=
  [false, true].flatMap fun h =>
    [false, true].flatMap fun wr =>
      [false, true].flatMap fun s =>
        [false, true].map fun t => ![h, wr, s, t]

/-- Best-by-value choice among a list of selections (`none` for an empty list). -/
def best : List Sel → Option Sel
  | [] => none
  | x :: xs => some (xs.foldl (fun acc y => if totalValue acc < totalValue y then y else acc) x)

/-- Modelled from the spec: the MILP solver adapter applied to the knapsack model with
capacity `Wmax`. It enumerates the binary selections, keeps the feasible ones, and
returns the best, or the typed `InfeasibleError` when no feasible point exists
(spec section 7: infeasibility "must produce a distinguishable error kind, never
silently returned as a zero solution"). -/
def solveKnapsack (Wmax : ℤ) : SolveResult :=
  match best (allSel.filter fun x => decide (totalWeight x ≤ Wmax)) with
  | none => SolveResult.infeasibleError
  | some x => SolveResult.optimal x

/-! ### Definitions: unit-commitment model (varme.py, homework3_copy.py) -/

/-- The power units `['M1', 'M2', 'M3']`. -/
def power_units : List String := ["M1", "M2", "M3"]

/-- The time periods `pyo.RangeSet(1, 10)`. -/
def time_periods : List ℕ := List.range' 1 10

/-- What a per-index constraint rule returns: an equality between two variable
instances (each identified by its unit and time-period index), or `skip`
(`pyo.Constraint.Skip`: no constraint instance is materialized). -/
inductive ConRuleResult where
  | eqCon (lhs rhs : String × ℕ) : ConRuleResult
  | skip : ConRuleResult
deriving DecidableEq

/-- `rule_con_cyclic` of varme.py (identical in homework3_copy.py up to the load
variable's name): for `j <= 5` return the equality `p[k, j] == p[k, j+5]`,
otherwise return `pyo.Constraint.Skip`. -/
def rule_con_cyclic (k : String) (j : ℕ) : ConRuleResult :=
  if j ≤ 5 then ConRuleResult.eqCon (k, j) (k, j + 5) else ConRuleResult.skip

/-! ### Definitions: objective activation (beer_pyomo_rules.py)

The script declares `model.obj_maxAlc`, solves, then deactivates it and declares
`model.obj_minCost` before the second solve. We replay the script's objective
declarations/deactivations as a state of named objectives with activity flags. -/

/-- The model's objective components: names paired with an active flag. -/
abbrev ObjList : Type := List (String × Bool)

/-- `pyo.Objective(...)` attaches a new, active objective component. -/
def addObjective (objs : ObjList) (name : String) : ObjList := objs ++ [(name, true)]

/-- `model.<obj>.deactivate()` clears the named objective's active flag. -/
def deactivateObjective (objs : ObjList) (name : String) : ObjList :=
  objs.map fun p => if p.1 = name then (p.1, false) else p

/-- The names of the currently active objectives. -/
def activeObjectives (objs : ObjList) : List String :=
  (objs.filter fun p => p.2).map fun p => p.1

/-- The objective state at the first solve (`opt.solve` on the max-alcohol model):
only `obj_maxAlc` has been declared. -/
def objsAtFirstSolve : ObjList := addObjective [] "obj_maxAlc"

/-- The objective state at the second solve: `obj_maxAlc` is deactivated
(`model.obj_maxAlc.deactivate()`) before `obj_minCost` is declared. -/
def objsAtSecondSolve : ObjList :=
  addObjective (deactivateObjective objsAtFirstSolve "obj_maxAlc") "obj_minCost"

/-! ### Definitions: blending LP (beer_maxalc_scipy.py)

Four liquids; `p` is the alcohol-by-volume vector, the total volume is 100,
`A_ub x <= b_ub` caps the strong liquors (vodka, brandy) at 10, and
`A_eq x = b_eq` fixes the total volume; `linprog` is called on `-p` because
scipy minimizes. -/

/-- Total volume `v_total = 100`. -/
def v_total : ℚ := 100

/-- The ABV vector `p = np.array([2.25, 40, 40, 1.5]) / 100`. -/
def p_frac : Fin 4 → ℚ := ![2.25 / 100, 40 / 100, 40 / 100, 1.5 / 100]

/-- The single row of `A_ub = [[0, 1, 1, 0]]`. -/
def A_ub_row : Fin 4 → ℚ := ![0, 1, 1, 0]

/-- `b_ub = [0.1 * v_total]`. -/
def b_ub : ℚ := 0.1 * v_total

/-- The single row of `A_eq = [[1, 1, 1, 1]]`. -/
def A_eq_row : Fin 4 → ℚ := ![1, 1, 1, 1]

/-- Lower bounds from `bounds = [(0,inf), (0,7), (2,inf), (3,5)]`. -/
def lb : Fin 4 → ℚ := ![0, 0, 2, 3]

/-- Upper bounds from `bounds = [(0,inf), (0,7), (2,inf), (3,5)]`; `none` is `np.inf`. -/
def ub : Fin 4 → Option ℚ := ![none, some 7, none, some 5]

/-- The objective vector handed to `linprog`: the elementwise negation `-p`. -/
def linprog_c : Fin 4 → ℚ := fun i => -p_frac i

/-- Dot product of two 4-vectors. -/
def dot (u v : Fin 4 → ℚ) : ℚ := Finset.univ.sum fun i => u i * v i

/-- Feasibility for the blending LP: variable bounds, the equality row, and the
inequality row. -/
def beerFeasible (x : Fin 4 → ℚ) : Prop :=
  (∀ i, lb i ≤ x i) ∧ (∀ i u, ub i = some u → x i ≤ u) ∧
  dot A_eq_row x = v_total ∧ dot A_ub_row x ≤ b_ub

/-- Optimality for the blending LP: feasible, and the total alcohol `p · x` is
maximal among feasible points. -/
def BeerOptimal (x : Fin 4 → ℚ) : Prop :=
  beerFeasible x ∧ ∀ y, beerFeasible y → dot p_frac y ≤ dot p_frac x

/-- The optimal blending: 87 l pilsner, 7 l vodka, 3 l brandy, 3 l malt. -/
def beerOpt : Fin 4 → ℚ := ![87, 7, 3, 3]

/-! ### Definitions: cost objective of homework3_copy.py -/

/-- The unit set `model.units = ['M1', 'M2', 'M3']` of homework3_copy.py. -/
def units : List String := ["M1", "M2", "M3"]

/-- The start costs `{'M1': 10, 'M2': 13, 'M3': 16}`. -/
def start_cost (k : String) : ℚ :=
  if k = "M1" then 10 else if k = "M2" then 13 else if k = "M3" then 16 else 0

/-- A full assignment of the model's decision variables (each a map from unit and
time period to a value). -/
structure VarAssign where
  x : String → ℕ → ℚ
  unit_load : String → ℕ → ℚ
  y : String → ℕ → ℚ
  z : String → ℕ → ℚ
  w : String → ℕ → ℚ

/-- `rule_obj_cost` of homework3_copy.py: initial cold-start cost plus repeat warm-start
cost plus repeat cold-start cost, built from the start indicators `y`, the warm-start
indicators `w` and the start-cost parameter; `[:6]` and `[5:]` slice the
time-period list. -/
def rule_obj_cost (v : VarAssign) : ℚ :=
  let initial_cold_start_cost :=
    (units.map fun k =>
      (1.5 * start_cost k) *
        (((time_periods.take 6).map fun j => v.y k j).sum -
         ((time_periods.drop 5).map fun j => v.y k j).sum)).sum
  let repeat_warm_start_cost :=
    (units.map fun k =>
      ((time_periods.drop 5).map fun j => v.w k j * start_cost k).sum).sum
  let repeat_cold_start_cost :=
    (units.map fun k =>
      (((time_periods.drop 5).map fun j => v.y k j).sum -
       ((time_periods.drop 5).map fun j => v.w k j).sum) * 1.5 * start_cost k).sum
  repeat_cold_start_cost + repeat_warm_start_cost + initial_cold_start_cost

/-- All-zero assignment. -/
def assignZero : VarAssign := ⟨fun _ _ => 0, fun _ _ => 0, fun _ _ => 0, fun _ _ => 0, fun _ _ => 0⟩

/-- Assignment with the same `y` and `w` as `assignZero` but different `x`, `unit_load`
and `z`. -/
def assignLoad : VarAssign := ⟨fun _ _ => 1, fun _ _ => 42, fun _ _ => 0, fun _ _ => 1, fun _ _ => 0⟩

/-! ### Definitions: box-volume NLP (boxvolume_lagrange1.py, boxvolume_nonlinear1.py)

Maximize the box volume `8*x1*x2*x3` over the unit sphere `x1^2+x2^2+x3^2 = 1`,
once as a Lagrange stationarity system handed to a root-finder, once as a
constrained minimization of the negated volume. -/

/-- `f` of boxvolume_lagrange1.py: the volume `8 * x[0] * x[1] * x[2]` of the full
vector `x = [x1, x2, x3, lambda]`. -/
def f (x : Fin 4 → ℝ) : ℝ := 8 * x 0 * x 1 * x 2

/-- `Ldiff` of boxvolume_lagrange1.py: the gradient of the Lagrangian
`[dL/dx1, dL/dx2, dL/dx3, dL/dlambda]` at `x = [x1, x2, x3, lambda]`. -/
def Ldiff (x : Fin 4 → ℝ) : Fin 4 → ℝ :=
  ![8 * x 1 * x 2 - 2 * x 3 * x 0,
    8 * x 0 * x 2 - 2 * x 3 * x 1,
    8 * x 0 * x 1 - 2 * x 3 * x 2,
    x 0 ^ 2 + x 1 ^ 2 + x 2 ^ 2 - 1]

/-- `objective` of boxvolume_nonlinear1.py: the problem is transposed to minimization,
`-8 * math.prod(x)`. -/
def objective (x : Fin 3 → ℝ) : ℝ := -8 * (x 0 * x 1 * x 2)

/-- `constraint_fun` of boxvolume_nonlinear1.py: `sum([j**2 for j in x])`, constrained
to equal 1. -/
def constraint_fun (x : Fin 3 → ℝ) : ℝ := x 0 ^ 2 + x 1 ^ 2 + x 2 ^ 2

/-! ### Definitions: solution reporting and dual availability (print_solution)

homework3_copy.py wraps the dual lookup in try/except and prints an explicit
"Duals are not available" line; beer_pyomo_rules.py interpolates
`result_model.dual[con[idx]]` directly, so a failed lookup raises. A constraint
record carries its dual as an `Option` (`none` models a failed retrieval). -/

/-- The data `print_solution` reads for one constraint instance: name, value, lower
and upper slack, and the dual lookup's result (`none` when the solver/model
combination does not support duality). -/
structure ConInfo where
  name : String
  value : ℚ
  lslack : ℚ
  uslack : ℚ
  dual : Option ℚ

/-- One emitted report line. -/
inductive ReportLine where
  | conLine (name : String) (value lsl usl d : ℚ) : ReportLine
  | conMain (name : String) (value lsl usl : ℚ) : ReportLine
  | dualLine (d : ℚ) : ReportLine
  | dualsUnavailable : ReportLine
deriving DecidableEq

/-- The constraint-loop body of homework3_copy.py's `print_solution`: the main line,
then the dual inside try/except — a failed lookup prints the 'Duals are not
available' line instead of raising. -/
def reportConHW (c : ConInfo) : List ReportLine :=
  [ReportLine.conMain c.name c.value c.lslack c.uslack] ++
    (match c.dual with
     | some d => [ReportLine.dualLine d]
     | none => [ReportLine.dualsUnavailable])

/-- The constraint loop of homework3_copy.py's `print_solution`. -/
def print_solution_HW (cons : List ConInfo) : List ReportLine :=
  cons.flatMap reportConHW

/-- The constraint-loop body of beer_pyomo_rules.py's `print_solution`: the dual is
interpolated into the single line with no handler, so a failed lookup raises
(modelled as `Except.error`). -/
def reportConBeer (c : ConInfo) : Except String ReportLine :=
  match c.dual with
  | some d => Except.ok (ReportLine.conLine c.name c.value c.lslack c.uslack d)
  | none => Except.error "KeyError"

/-- The constraint loop of beer_pyomo_rules.py's `print_solution`: stops with the
raised error at the first constraint whose dual lookup fails. -/
def print_solution_Beer (cons : List ConInfo) : Except String (List ReportLine) :=
  cons.mapM reportConBeer

/-- A constraint record whose dual retrieval failed. -/
def conNoDual : ConInfo := ⟨"con_demand", 50, 0, 0, none⟩

/-! ### Theorems -/

/-- `selBest` is optimal for the knapsack model. -/
theorem knapModel_optimal_selBest : IsOptimal knapModel selBest :=
  ⟨show totalWeight selBest ≤ W_max by decide,
   show ∀ y, totalWeight y ≤ W_max → totalValue y ≤ totalValue selBest by decide⟩

/-- C1: every optimal binary selection of the knapsack model has total weight at most 14
and total value at least 21. -/
theorem knapsack_optimal_weight_value (x : Sel) (h : IsOptimal knapModel x) :
    totalWeight x ≤ 14 ∧ 21 ≤ totalValue x := by
  refine ⟨h.1, ?_⟩
  have h25 : totalValue selBest ≤ totalValue x :=
    h.2 selBest (show totalWeight selBest ≤ W_max by decide)
  have : totalValue selBest = 25 := by decide
  omega

/-- C1 witness: the concrete optimal selection {hammer, screwdriver, towel}. -/
theorem knapsack_optimal_weight_value_witness :
    totalWeight selBest ≤ 14 ∧ 21 ≤ totalValue selBest :=
  knapsack_optimal_weight_value selBest knapModel_optimal_selBest

/-- C6: round-trip re-solve. If `x` is optimal for `M` and `y` is optimal for the model
obtained by fixing every variable at `x`, then the re-solve's objective value equals the
original objective value. -/
theorem fixAll_resolve_same_objective {α : Type} (M : OptModel α) (x y : α)
    (hx : IsOptimal M x) (hy : IsOptimal (fixAll M x) y) :
    (fixAll M x).obj y = M.obj x := by
  have hyx : y = x := hy.1.2
  have := hx.1
  simp [fixAll, hyx]

/-- C6 witness: the knapsack model, fixed at its optimal selection and re-solved,
reports the same objective value. -/
theorem fixAll_resolve_same_objective_witness :
    (fixAll knapModel selBest).obj selBest = knapModel.obj selBest :=
  fixAll_resolve_same_objective knapModel selBest selBest
    knapModel_optimal_selBest
    ⟨⟨knapModel_optimal_selBest.1, rfl⟩, fun y hy => by
      have : y = selBest := hy.2
      simp [this]⟩

/-- The knapsack weight of any selection is nonnegative. -/
theorem totalWeight_nonneg (x : Sel) : 0 ≤ totalWeight x := by
  refine Finset.sum_nonneg fun i _ => ?_
  have hw : 0 ≤ w i := by fin_cases i <;> decide
  have hb : 0 ≤ b2i (x i) := by unfold b2i; split <;> decide
  exact mul_nonneg hw hb

/-- C4: a negative knapsack capacity yields the typed `InfeasibleError`, not a crash and
not a spurious zero solution. -/
theorem solveKnapsack_neg_capacity (Wmax : ℤ) (h : Wmax < 0) :
    solveKnapsack Wmax = SolveResult.infeasibleError := by
  unfold solveKnapsack
  have hfilter : (allSel.filter fun x => decide (totalWeight x ≤ Wmax)) = [] := by
    refine List.filter_eq_nil_iff.mpr fun x _ => ?_
    simp only [decide_eq_true_eq]
    intro hle
    have h0 : 0 ≤ totalWeight x := totalWeight_nonneg x
    omega
  rw [hfilter]
  rfl

/-- C4 witness: capacity `-1` is infeasible. -/
theorem solveKnapsack_neg_capacity_witness :
    solveKnapsack (-1) = SolveResult.infeasibleError :=
  solveKnapsack_neg_capacity (-1) (by decide)

/-- C7: over units and time periods 1..10, the cyclic rule materializes exactly the
equalities `p[k,j] = p[k,j+5]` for `j ≤ 5` and skips every `j > 5`. -/
theorem rule_con_cyclic_sparse (k : String) (j : ℕ)
    (_hk : k ∈ power_units) (_hj : j ∈ time_periods) :
    (j ≤ 5 → rule_con_cyclic k j = ConRuleResult.eqCon (k, j) (k, j + 5)) ∧
    (5 < j → rule_con_cyclic k j = ConRuleResult.skip) := by
  constructor
  · intro h5
    simp [rule_con_cyclic, h5]
  · intro h5
    simp [rule_con_cyclic, Nat.not_le.mpr h5]

/-- C7 witness: unit M1 at periods 3 (materialized) and 8 (skipped). -/
theorem rule_con_cyclic_sparse_witness :
    (rule_con_cyclic "M1" 3 = ConRuleResult.eqCon ("M1", 3) ("M1", 8)) ∧
    (rule_con_cyclic "M1" 8 = ConRuleResult.skip) :=
  ⟨(rule_con_cyclic_sparse "M1" 3 (by decide) (by decide)).1 (by decide),
   (rule_con_cyclic_sparse "M1" 8 (by decide) (by decide)).2 (by decide)⟩

/-- C8: each solve call of beer_pyomo_rules.py sees exactly one active objective —
`obj_maxAlc` at the first solve, `obj_minCost` (the previous objective having been
deactivated first) at the second. -/
theorem single_active_objective :
    activeObjectives objsAtFirstSolve = ["obj_maxAlc"] ∧
    activeObjectives objsAtSecondSolve = ["obj_minCost"] := by
  decide

/-- C9: `linprog` receives the elementwise negation of `p`; for every assignment the
solver's objective equals `-(p . x)`, and minimizing `(-p) . x` is exactly maximizing
`p . x`. -/
theorem linprog_objective_negation :
    (∀ i, linprog_c i = -p_frac i) ∧
    (∀ x, dot linprog_c x = -dot p_frac x) ∧
    (∀ x y, dot linprog_c x ≤ dot linprog_c y ↔ dot p_frac y ≤ dot p_frac x) := by
  have hneg : ∀ x, dot linprog_c x = -dot p_frac x := by
    intro x
    simp [dot, linprog_c, neg_mul, Finset.sum_neg_distrib]
  refine ⟨fun i => rfl, hneg, fun x y => ?_⟩
  rw [hneg, hneg]
  exact neg_le_neg_iff

/-- `beerOpt` is optimal for the blending LP. -/
theorem beerOpt_optimal : BeerOptimal beerOpt := by
  have hfeas : beerFeasible beerOpt := by
    refine ⟨?_, ?_, ?_, ?_⟩
    · intro i; fin_cases i <;> norm_num [lb, beerOpt]
    · intro i u hu
      fin_cases i <;> simp [ub] at hu <;> subst hu <;> norm_num [beerOpt]
    · norm_num [dot, A_eq_row, beerOpt, v_total, Fin.sum_univ_four]
    · norm_num [dot, A_ub_row, beerOpt, b_ub, v_total, Fin.sum_univ_four]
  refine ⟨hfeas, fun y hy => ?_⟩
  obtain ⟨hlb, hub, heq, hin⟩ := hy
  have h3 : (3 : ℚ) ≤ y 3 := by simpa [lb] using hlb 3
  have heq' : y 0 + y 1 + y 2 + y 3 = 100 := by
    simpa [dot, A_eq_row, v_total, Fin.sum_univ_four] using heq
  have hin' : y 1 + y 2 ≤ 10 := by
    norm_num [dot, A_ub_row, b_ub, v_total, Fin.sum_univ_four] at hin
    exact hin
  have hgoal : dot p_frac y = 2.25 / 100 * y 0 + 40 / 100 * y 1 + 40 / 100 * y 2
      + 1.5 / 100 * y 3 := by
    simp [dot, p_frac, Fin.sum_univ_four]
  have hval : dot p_frac beerOpt = 2401 / 400 := by
    norm_num [dot, p_frac, beerOpt, Fin.sum_univ_four]
  rw [hgoal, hval]
  linarith

/-- C3: every point maximizing total alcohol for the blending LP is feasible: the four
volumes sum to exactly 100, the strong liquors sum to at most 10, and every variable
respects its declared bounds. -/
theorem beer_optimal_feasible (x : Fin 4 → ℚ) (h : BeerOptimal x) :
    x 0 + x 1 + x 2 + x 3 = 100 ∧ x 1 + x 2 ≤ 10 ∧
    (∀ i, lb i ≤ x i) ∧ (∀ i u, ub i = some u → x i ≤ u) := by
  obtain ⟨⟨hlb, hub, heq, hin⟩, -⟩ := h
  refine ⟨?_, ?_, hlb, hub⟩
  · simpa [dot, A_eq_row, v_total, Fin.sum_univ_four] using heq
  · norm_num [dot, A_ub_row, b_ub, v_total, Fin.sum_univ_four] at hin
    exact hin

/-- C3 witness: the concrete optimum of the blending LP. -/
theorem beer_optimal_feasible_witness :
    beerOpt 0 + beerOpt 1 + beerOpt 2 + beerOpt 3 = 100 ∧ beerOpt 1 + beerOpt 2 ≤ 10 ∧
    (∀ i, lb i ≤ beerOpt i) ∧ (∀ i u, ub i = some u → beerOpt i ≤ u) :=
  beer_optimal_feasible beerOpt beerOpt_optimal

/-- C10: the cost objective depends only on `y` and `w`: two assignments agreeing on
`y` and `w` (but arbitrary on `x`, `unit_load`, `z`) give the same objective value. -/
theorem rule_obj_cost_depends_only_y_w (v1 v2 : VarAssign)
    (hy : v1.y = v2.y) (hw : v1.w = v2.w) :
    rule_obj_cost v1 = rule_obj_cost v2 := by
  unfold rule_obj_cost
  rw [hy, hw]

/-- C10 witness: changing `unit_load` (and `x`, `z`) from all-zero to nonzero leaves the
cost objective unchanged. -/
theorem rule_obj_cost_depends_only_y_w_witness :
    assignZero.y = assignLoad.y ∧ assignZero.w = assignLoad.w ∧
    rule_obj_cost assignZero = rule_obj_cost assignLoad :=
  ⟨rfl, rfl, rule_obj_cost_depends_only_y_w assignZero assignLoad rfl rfl⟩

/-- Three-variable AM-GM on the standard simplex: `a*b*c ≤ 1/27` when
`a + b + c = 1` with `a, b, c ≥ 0`. -/
theorem amgm3 (a b c : ℝ) (ha : 0 ≤ a) (hb : 0 ≤ b) (hc : 0 ≤ c) (h : a + b + c = 1) :
    a * b * c ≤ 1 / 27 := by
  have habc : 0 ≤ a + b + c := by linarith
  have h3 : (a + b + c) ^ 3 = 1 := by rw [h]; norm_num
  nlinarith [h3, mul_nonneg habc (sq_nonneg (a - b)), mul_nonneg habc (sq_nonneg (b - c)),
    mul_nonneg habc (sq_nonneg (a - c)), mul_nonneg hc (sq_nonneg (a - b)),
    mul_nonneg ha (sq_nonneg (b - c)), mul_nonneg hb (sq_nonneg (a - c))]

/-- On the unit sphere, `(x1*x2*x3)^2 ≤ 1/27`. -/
theorem prod_sq_le (x1 x2 x3 : ℝ) (h : x1 ^ 2 + x2 ^ 2 + x3 ^ 2 = 1) :
    (x1 * x2 * x3) ^ 2 ≤ 1 / 27 := by
  calc (x1 * x2 * x3) ^ 2 = x1 ^ 2 * x2 ^ 2 * x3 ^ 2 := by ring
    _ ≤ 1 / 27 := amgm3 _ _ _ (sq_nonneg x1) (sq_nonneg x2) (sq_nonneg x3) h

/-- From `t^2 ≤ c^2` and `0 < c` conclude `t ≤ c`. -/
theorem le_of_sq_le_sq_pos (t c : ℝ) (hc : 0 < c) (h : t ^ 2 ≤ c ^ 2) : t ≤ c := by
  nlinarith [hc, h]

/-- The box volume is at most `8/(3*sqrt 3)` on the unit sphere. -/
theorem volume_le (x1 x2 x3 : ℝ) (h : x1 ^ 2 + x2 ^ 2 + x3 ^ 2 = 1) :
    8 * x1 * x2 * x3 ≤ 8 / (3 * Real.sqrt 3) := by
  have hs2 : Real.sqrt 3 ^ 2 = 3 := Real.sq_sqrt (by norm_num)
  have hb : (0:ℝ) < 1 / (3 * Real.sqrt 3) := by positivity
  have hb2 : (1 / (3 * Real.sqrt 3)) ^ 2 = 1 / 27 := by
    rw [div_pow, mul_pow, hs2]
    norm_num
  have ht : x1 * x2 * x3 ≤ 1 / (3 * Real.sqrt 3) := by
    apply le_of_sq_le_sq_pos _ _ hb
    rw [hb2]
    exact prod_sq_le x1 x2 x3 h
  calc 8 * x1 * x2 * x3 = 8 * (x1 * x2 * x3) := by ring
    _ ≤ 8 * (1 / (3 * Real.sqrt 3)) := by linarith
    _ = 8 / (3 * Real.sqrt 3) := by ring

/-- C2: the point `x1 = x2 = x3 = 1/sqrt 3` solves the box-volume problem in both
formulations: with multiplier `lambda = 4/sqrt 3` it is a root of `Ldiff`; the volume
there is `8/(3*sqrt 3)`, which bounds the volume at every root-feasible point; and in
the minimization formulation the same point is feasible, attains `-(8/(3*sqrt 3))`,
and that value is the minimum of `objective` over the constraint set — so the two
formulations agree. -/
theorem boxvolume_formulations_agree :
    (∀ i, Ldiff ![1 / Real.sqrt 3, 1 / Real.sqrt 3, 1 / Real.sqrt 3, 4 / Real.sqrt 3] i = 0) ∧
    f ![1 / Real.sqrt 3, 1 / Real.sqrt 3, 1 / Real.sqrt 3, 4 / Real.sqrt 3]
      = 8 / (3 * Real.sqrt 3) ∧
    (∀ x : Fin 4 → ℝ, Ldiff x 3 = 0 → f x ≤ 8 / (3 * Real.sqrt 3)) ∧
    constraint_fun ![1 / Real.sqrt 3, 1 / Real.sqrt 3, 1 / Real.sqrt 3] = 1 ∧
    objective ![1 / Real.sqrt 3, 1 / Real.sqrt 3, 1 / Real.sqrt 3]
      = -(8 / (3 * Real.sqrt 3)) ∧
    (∀ x : Fin 3 → ℝ, constraint_fun x = 1 → -(8 / (3 * Real.sqrt 3)) ≤ objective x) := by
  have hs : 0 < Real.sqrt 3 := Real.sqrt_pos.mpr (by norm_num)
  have hs2 : Real.sqrt 3 ^ 2 = 3 := Real.sq_sqrt (by norm_num)
  refine ⟨?_, ?_, ?_, ?_, ?_, ?_⟩
  · intro i
    fin_cases i
    · show 8 * (1 / Real.sqrt 3) * (1 / Real.sqrt 3)
        - 2 * (4 / Real.sqrt 3) * (1 / Real.sqrt 3) = 0
      field_simp
      norm_num
    · show 8 * (1 / Real.sqrt 3) * (1 / Real.sqrt 3)
        - 2 * (4 / Real.sqrt 3) * (1 / Real.sqrt 3) = 0
      field_simp
      norm_num
    · show 8 * (1 / Real.sqrt 3) * (1 / Real.sqrt 3)
        - 2 * (4 / Real.sqrt 3) * (1 / Real.sqrt 3) = 0
      field_simp
      norm_num
    · show (1 / Real.sqrt 3) ^ 2 + (1 / Real.sqrt 3) ^ 2 + (1 / Real.sqrt 3) ^ 2 - 1 = 0
      field_simp
      nlinarith [hs2]
  · show 8 * (1 / Real.sqrt 3) * (1 / Real.sqrt 3) * (1 / Real.sqrt 3)
      = 8 / (3 * Real.sqrt 3)
    rw [eq_div_iff (by positivity)]
    field_simp
  · intro x hx
    have hx' : x 0 ^ 2 + x 1 ^ 2 + x 2 ^ 2 - 1 = 0 := hx
    have hcon : x 0 ^ 2 + x 1 ^ 2 + x 2 ^ 2 = 1 := by linarith
    exact volume_le (x 0) (x 1) (x 2) hcon
  · show (1 / Real.sqrt 3) ^ 2 + (1 / Real.sqrt 3) ^ 2 + (1 / Real.sqrt 3) ^ 2 = 1
    field_simp
    norm_num
  · show -8 * (1 / Real.sqrt 3 * (1 / Real.sqrt 3) * (1 / Real.sqrt 3))
      = -(8 / (3 * Real.sqrt 3))
    field_simp
  · intro x hx
    have hle : 8 * x 0 * x 1 * x 2 ≤ 8 / (3 * Real.sqrt 3) := volume_le (x 0) (x 1) (x 2) hx
    unfold objective
    linarith

/-- C2 witness: the two quantified bounds of the agreement theorem, instantiated at
the optimal point itself, its feasibility discharged by the theorem's other
conjuncts. -/
theorem boxvolume_formulations_agree_witness :
    f ![1 / Real.sqrt 3, 1 / Real.sqrt 3, 1 / Real.sqrt 3, 4 / Real.sqrt 3]
      ≤ 8 / (3 * Real.sqrt 3) ∧
    -(8 / (3 * Real.sqrt 3))
      ≤ objective ![1 / Real.sqrt 3, 1 / Real.sqrt 3, 1 / Real.sqrt 3] :=
  ⟨boxvolume_formulations_agree.2.2.1 _ (boxvolume_formulations_agree.1 3),
   boxvolume_formulations_agree.2.2.2.2.2 _ boxvolume_formulations_agree.2.2.2.1⟩

/-- C5 counterexample: beer_pyomo_rules.py's `print_solution` is a solution-reporting
operation of the repository that does raise when dual retrieval fails: on a
constraint with no dual it propagates the error instead of emitting an
'unavailable' marker. -/
theorem print_solution_beer_raises :
    print_solution_Beer [⟨"con_totalVol", 100, 0, 0, none⟩] = Except.error "KeyError" := by
  rfl

/-- C5 (amended to homework3_copy.py's reporter): `print_solution` never raises — it
emits exactly two lines per constraint (so every constraint is reported), and for
each constraint whose dual retrieval fails the 'Duals are not available' marker is
among the output. -/
theorem print_solution_hw_degrades (cons : List ConInfo) :
    (print_solution_HW cons).length = 2 * cons.length ∧
    ∀ c ∈ cons, c.dual = none → ReportLine.dualsUnavailable ∈ print_solution_HW cons := by
  constructor
  · induction cons with
    | nil => rfl
    | cons a as ih =>
      have ha : (reportConHW a).length = 2 := by
        unfold reportConHW
        cases a.dual <;> rfl
      simp only [print_solution_HW, List.flatMap_cons, List.length_append, List.length_cons]
      simp only [print_solution_HW] at ih
      omega
  · intro c hc hd
    have hmem : ReportLine.dualsUnavailable ∈ reportConHW c := by
      unfold reportConHW
      rw [hd]
      simp
    exact List.mem_flatMap.mpr ⟨c, hc, hmem⟩

/-- C5 witness: on a one-constraint model with a failed dual lookup, homework3's
reporter emits two lines including the 'Duals are not available' marker. -/
theorem print_solution_hw_degrades_witness :
    (print_solution_HW [conNoDual]).length = 2 * [conNoDual].length ∧
    ReportLine.dualsUnavailable ∈ print_solution_HW [conNoDual] :=
  ⟨(print_solution_hw_degrades [conNoDual]).1,
   (print_solution_hw_degrades [conNoDual]).2 conNoDual (by simp) rfl⟩

end Spec2Proof
